import Mathlib

/-!
Verification development for the SGA `overlap` subprogram
(`src/SGA/overlap.cpp`): conversion of suffix-array hit records into
canonical overlap edges, legacy routing of overlaps into containment and
overlap streams, and the option-parsing invariant on the output type.

The embedding follows `overlap.cpp`.  Types that live in headers outside
the provided source (SeqCoord, Match predicates, OverlapBlock stream
extraction) are modelled from the specification and marked as such.
-/

set_option autoImplicit false

namespace SGAOverlap

/-- Modelled from the spec: `SequenceCoordinate` (C++ `SeqCoord`, defined in
`Util.h`, absent from src/): a closed interval `[start, stop]` over a
sequence of length `seqlen`.  Fields are C++ `int`s, modelled as `Int`. -/
structure SeqCoord where
  start : Int
  stop : Int
  seqlen : Int
deriving DecidableEq, Repr

/-- Modelled from the spec: `isContained` holds when the interval spans the
whole sequence: `start == 0 && end == sequenceLength - 1`. -/
def SeqCoord.isContained (c : SeqCoord) : Bool :=
  c.start == 0 && c.stop == c.seqlen - 1

/-- Modelled from the spec: `isLeftExtreme` holds when `start == 0`. -/
def SeqCoord.isLeftExtreme (c : SeqCoord) : Bool :=
  c.start == 0

/-- Modelled from the spec: `isRightExtreme` holds when
`end == sequenceLength - 1`. -/
def SeqCoord.isRightExtreme (c : SeqCoord) : Bool :=
  c.stop == c.seqlen - 1

/-- Modelled from the spec: `isExtreme := isLeftExtreme || isRightExtreme`. -/
def SeqCoord.isExtreme (c : SeqCoord) : Bool :=
  c.isLeftExtreme || c.isRightExtreme

/-- Modelled from the spec: `flip()` remaps the interval to the
reverse-complement frame: new `start = sequenceLength - 1 - end`,
new `end = sequenceLength - 1 - start`. -/
def SeqCoord.flip (c : SeqCoord) : SeqCoord :=
  ⟨c.seqlen - 1 - c.stop, c.seqlen - 1 - c.start, c.seqlen⟩

/-- Lexicographic strict comparison of character lists by character code:
the semantics of C++ `std::string::operator<` used by the deduplication
guard at `overlap.cpp:312`. -/
def listLtChar : List Char → List Char → Bool
  | [], [] => false
  | [], _ :: _ => true
  | _ :: _, [] => false
  | a :: as, b :: bs =>
    if a.toNat < b.toNat then true
    else if b.toNat < a.toNat then false
    else listLtChar as bs

/-- Lexicographic strict comparison of read ids (`o.id[0] < o.id[1]`). -/
def strLt (a b : String) : Bool :=
  listLtChar a.data b.data

/-- A read-table entry (C++ `SeqItem`): read id and sequence. -/
structure SeqItem where
  id : String
  seq : String
deriving DecidableEq, Repr

/-- An `Overlap` record as constructed at `overlap.cpp:306`:
`Overlap o(query.id, sc1, target.id, sc2, isRC, record.numDiff)`.
`idA`/`coordA` are the query side (`o.id[0]`, `o.match.coord[0]`),
`idB`/`coordB` the target side. -/
structure Overlap where
  idA : String
  coordA : SeqCoord
  idB : String
  coordB : SeqCoord
  isRC : Bool
  numDiff : Int
deriving DecidableEq, Repr

/-- Modelled from the spec: `Match::isContainment` (absent from src/):
the match is a containment when either coordinate spans its whole
sequence (`coordA.isContained || coordB.isContained`). -/
def Overlap.isContainment (o : Overlap) : Bool :=
  o.coordA.isContained || o.coordB.isContained

/-- A parsed hit-file block (C++ `OverlapBlock` as consumed at
`overlap.cpp:269-304`): one suffix-array interval `[lower, upper]`, the
overlap length, the edit-distance count, and the two strand flags
(`flags.isQueryRev()`, `flags.isTargetRev()`). -/
structure OverlapBlock where
  lower : Int
  upper : Int
  overlapLen : Int
  numDiff : Int
  isQueryRev : Bool
  isTargetRev : Bool
deriving DecidableEq, Repr

/-- Destination chosen by `writeOverlap` (`overlap.cpp:324-362`) for one
record: the containment stream, the overlap stream, or one of the two
non-fatal discard-with-warning paths. -/
inductive WriteDest where
  | toContainment
  | toOverlaps
  | skippedNonExtreme
  | skippedImproper
deriving DecidableEq, Repr

/-- `writeOverlap` (`overlap.cpp:324-362`), as the routing decision for one
record: containments go to the containment stream and return at once;
otherwise non-extreme records are skipped with a warning; otherwise the
properness test (same-strand: extremities must differ on both sides;
opposite-strand: extremities must agree on both sides) routes to the
overlap stream or skips with a warning. -/
def writeOverlap (ovr : Overlap) : WriteDest :=
  if ovr.coordA.isContained || ovr.coordB.isContained then
    WriteDest.toContainment
  else if !ovr.coordA.isExtreme || !ovr.coordB.isExtreme then
    WriteDest.skippedNonExtreme
  else
    let sameStrand := !ovr.isRC
    let proper :=
      if sameStrand then
        (ovr.coordA.isLeftExtreme != ovr.coordB.isLeftExtreme) &&
          (ovr.coordA.isRightExtreme != ovr.coordB.isRightExtreme)
      else
        (ovr.coordA.isLeftExtreme == ovr.coordB.isLeftExtreme) &&
          (ovr.coordA.isRightExtreme == ovr.coordB.isRightExtreme)
    if !proper then WriteDest.skippedImproper else WriteDest.toOverlaps

/-- State of the `std::istringstream` used in `hitStringToOverlaps`
(`overlap.cpp:258`), modelled at whitespace-separated-token granularity:
the remaining tokens and whether the stream has entered the fail state.
Once failed, further extraction does nothing. -/
structure IStream where
  toks : List String
  failed : Bool
deriving DecidableEq, Repr

/-- Splitting a character list into maximal whitespace-free tokens;
`acc` holds the characters of the current token in reverse. -/
def splitTokens : List Char → List Char → List String
  | [], acc => if acc.isEmpty then [] else [String.mk acc.reverse]
  | c :: cs, acc =>
    if c.isWhitespace then
      if acc.isEmpty then splitTokens cs []
      else String.mk acc.reverse :: splitTokens cs []
    else splitTokens cs (c :: acc)

/-- Whitespace tokenization performed implicitly by `operator>>`. -/
def tokenize (s : String) : List String :=
  splitTokens s.data []

/-- Accumulating decimal digit parse; fails on any non-digit character. -/
def digitsToNat? : List Char → Nat → Option Nat
  | [], acc => some acc
  | c :: cs, acc =>
    if c.isDigit then digitsToNat? cs (acc * 10 + (c.toNat - '0'.toNat))
    else none

/-- Decimal parse of one token as an unsigned value (C++ `num_get` for an
unsigned type, at token granularity): one or more digits. -/
def parseNatToken (t : String) : Option Nat :=
  match t.data with
  | [] => none
  | cs => digitsToNat? cs 0

/-- Decimal parse of one token as a signed value: an optional leading
minus sign followed by one or more digits. -/
def parseIntToken (t : String) : Option Int :=
  match t.data with
  | [] => none
  | '-' :: [] => none
  | '-' :: cs => (digitsToNat? cs 0).map fun n => -(n : Int)
  | cs => (digitsToNat? cs 0).map fun n => (n : Int)

/-- Extraction of an unsigned integer (`convertor >> readIdx`,
`overlap.cpp:263`), with C++11 stream semantics at token granularity: on a
failed stream nothing happens; on a missing or non-numeric token the value
is set to 0 and the stream enters the fail state. -/
def extractNat (s : IStream) : Nat × IStream :=
  if s.failed then (0, s)
  else
    match s.toks with
    | [] => (0, { s with failed := true })
    | t :: ts =>
      match parseNatToken t with
      | some v => (v, { toks := ts, failed := false })
      | none => (0, { toks := ts, failed := true })

/-- Extraction of a signed integer field, with the same C++11 stream
semantics as `extractNat`. -/
def extractInt (s : IStream) : Int × IStream :=
  if s.failed then (0, s)
  else
    match s.toks with
    | [] => (0, { s with failed := true })
    | t :: ts =>
      match parseIntToken t with
      | some v => (v, { toks := ts, failed := false })
      | none => (0, { toks := ts, failed := true })

/-- Modelled from the spec: `operator>>` for `OverlapBlock`
(`convertor >> record`, `overlap.cpp:270`; the operator lives outside
src/).  Per the spec the serialized block is
`intervalLower intervalUpper overlapLength numDifferences flags`, where
`flags` packs `queryIsReverse` and `targetIsReverse` as a two-bit token
(the spec leaves the bit assignment opaque; bits 0 and 1 are used here,
and no claim depends on the choice). -/
def extractBlock (s : IStream) : OverlapBlock × IStream :=
  let (lo, s) := extractInt s
  let (hi, s) := extractInt s
  let (len, s) := extractInt s
  let (nd, s) := extractInt s
  let (fl, s) := extractNat s
  (⟨lo, hi, len, nd, fl.testBit 0, fl.testBit 1⟩, s)

/-- Read-table / suffix-array-index selection (`overlap.cpp:276-277`): the
reverse pair is used when the block's target-reverse flag is set. -/
def currRT (pFwdRT pRevRT : Nat → SeqItem) (record : OverlapBlock) : Nat → SeqItem :=
  if record.isTargetRev then pRevRT else pFwdRT

/-- Suffix-array-index selection (`overlap.cpp:277`). -/
def currSAI (pFwdSAI pRevSAI : Int → Nat) (record : OverlapBlock) : Int → Nat :=
  if record.isTargetRev then pRevSAI else pFwdSAI

/-- The query read of a hit record (`overlap.cpp:278`): looked up by
`readIdx` in the table selected by the target-reverse flag. -/
def queryOf (pFwdRT pRevRT : Nat → SeqItem) (record : OverlapBlock) (readIdx : Nat) : SeqItem :=
  currRT pFwdRT pRevRT record readIdx

/-- The target read of one index position (`overlap.cpp:283`): position `j`
resolved through the selected suffix-array index to a read-table index. -/
def targetOf (pFwdRT pRevRT : Nat → SeqItem) (pFwdSAI pRevSAI : Int → Nat)
    (record : OverlapBlock) (j : Int) : SeqItem :=
  currRT pFwdRT pRevRT record (currSAI pFwdSAI pRevSAI record j)

/-- Construction of the `Overlap` for one index position
(`overlap.cpp:288-306`): `coordA` runs over the last `overlapLen` bases of
the query, `coordB` over the first `overlapLen` bases of the target; each
is flipped when the corresponding strand flag is set, and the
reverse-complement flag is the XOR of the two strand flags. -/
def buildOverlap (pFwdRT pRevRT : Nat → SeqItem) (pFwdSAI pRevSAI : Int → Nat)
    (readIdx : Nat) (record : OverlapBlock) (j : Int) : Overlap :=
  let query := queryOf pFwdRT pRevRT record readIdx
  let target := targetOf pFwdRT pRevRT pFwdSAI pRevSAI record j
  let s1 : Int := (query.seq.length : Int) - record.overlapLen
  let e1 : Int := s1 + record.overlapLen - 1
  let sc1 : SeqCoord := ⟨s1, e1, (query.seq.length : Int)⟩
  let s2 : Int := 0
  let e2 : Int := s2 + record.overlapLen - 1
  let sc2 : SeqCoord := ⟨s2, e2, (target.seq.length : Int)⟩
  let sc1 := if record.isQueryRev then sc1.flip else sc1
  let sc2 := if record.isTargetRev then sc2.flip else sc2
  let isRC := record.isTargetRev != record.isQueryRev
  { idA := query.id, coordA := sc1, idB := target.id, coordB := sc2,
    isRC := isRC, numDiff := record.numDiff }

/-- Processing of one index position of a block (`overlap.cpp:274-316`):
self alignments are skipped, the overlap is constructed, and the
deduplication guard (`overlap.cpp:312`) drops it when the query id is
lexicographically lower than the target id, or the match is a containment
and the query-reverse flag is set. -/
def positionToOverlap (pFwdRT pRevRT : Nat → SeqItem) (pFwdSAI pRevSAI : Int → Nat)
    (readIdx : Nat) (record : OverlapBlock) (j : Int) : Option Overlap :=
  let query := queryOf pFwdRT pRevRT record readIdx
  let target := targetOf pFwdRT pRevRT pFwdSAI pRevSAI record j
  if query.id ≠ target.id then
    let o := buildOverlap pFwdRT pRevRT pFwdSAI pRevSAI readIdx record j
    if strLt o.idA o.idB || (o.isContainment && record.isQueryRev) then none
    else some o
  else none

/-- The ascending enumeration of the block's suffix-array interval
(`for j = lower; j <= upper; ++j`, `overlap.cpp:274`). -/
def intRange (lo hi : Int) : List Int :=
  (List.range (hi + 1 - lo).toNat).map fun k => lo + k

/-- All overlaps contributed by one block (`overlap.cpp:274-317`). -/
def blockToOverlaps (pFwdRT pRevRT : Nat → SeqItem) (pFwdSAI pRevSAI : Int → Nat)
    (readIdx : Nat) (record : OverlapBlock) : List Overlap :=
  (intRange record.lower record.upper).filterMap
    (positionToOverlap pFwdRT pRevRT pFwdSAI pRevSAI readIdx record)

/-- The outer block loop of `hitStringToOverlaps` (`overlap.cpp:266-318`):
extract `numBlocks` blocks from the stream in order, concatenating each
block's overlaps. -/
def runBlocks (pFwdRT pRevRT : Nat → SeqItem) (pFwdSAI pRevSAI : Int → Nat)
    (readIdx : Nat) : Nat → IStream → List Overlap
  | 0, _ => []
  | Nat.succ n, s =>
    blockToOverlaps pFwdRT pRevRT pFwdSAI pRevSAI readIdx (extractBlock s).1 ++
      runBlocks pFwdRT pRevRT pFwdSAI pRevSAI readIdx n (extractBlock s).2

/-- `hitStringToOverlaps` (`overlap.cpp:253-320`): parse `readIdx` and
`numBlocks` from the hit line, then process that many blocks.  The C++
function returns a plain `OverlapVector` and performs no error checking:
extraction failures leave the stream in the fail state and the loop simply
processes whatever (zero-valued) counts resulted. -/
def hitStringToOverlaps (hitString : String) (pFwdRT pRevRT : Nat → SeqItem)
    (pFwdSAI pRevSAI : Int → Nat) : List Overlap :=
  let conv0 : IStream := ⟨tokenize hitString, false⟩
  runBlocks pFwdRT pRevRT pFwdSAI pRevSAI
    (extractNat conv0).1
    (extractNat (extractNat conv0).2).1
    (extractNat (extractNat conv0).2).2

/-- The output-type enumeration of `overlap.cpp:27-31`. -/
inductive OutputType where
  | OT_ASQG
  | OT_RAW
deriving DecidableEq, Repr

/-- The mutable option state of the `opt` namespace (`overlap.cpp:65-78`).
`errorRate` is a C++ `double`; it is kept here as the raw option token,
since floating point is outside this embedding and no claim reads it. -/
structure OverlapOpts where
  verbose : Nat
  numThreads : Int
  outputType : OutputType
  prefixStr : String
  readsFile : String
  errorRateRaw : String
  minOverlap : Nat
  seedLength : Int
  seedStride : Int
  bIrreducibleOnly : Bool
deriving DecidableEq, Repr

/-- The initial option state (`overlap.cpp:67-77`): `numThreads = 1`,
`outputType = OT_ASQG`, `minOverlap = DEFAULT_MIN_OVERLAP` (an external
constant from `SGACommon.h`, taken as a parameter), everything else
zero/empty/false. -/
def initialOpts (defaultMinOverlap : Nat) : OverlapOpts :=
  { verbose := 0, numThreads := 1, outputType := OutputType.OT_ASQG,
    prefixStr := "", readsFile := "", errorRateRaw := "",
    minOverlap := defaultMinOverlap, seedLength := 0, seedStride := 0,
    bIrreducibleOnly := false }

/-- One parsed `getopt_long` case of the switch at `overlap.cpp:373-390`,
with the already-extracted option argument where one exists. -/
inductive OptCase where
  | optM (v : Nat)
  | optP (v : String)
  | optE (raw : String)
  | optT (v : Int)
  | optL (v : Int)
  | optS (v : Int)
  | optI
  | optUnknown
  | optV
  | optHelp
  | optVersion
deriving DecidableEq, Repr

/-- One iteration of the option loop (`overlap.cpp:373-390`) on the state
`(options, die)`.  `optHelp` and `optVersion` print a message and exit the
process before `overlapMain` continues, so they leave the state unchanged
here; `optUnknown` (case `?`) sets the `die` flag. -/
def applyOption (st : OverlapOpts × Bool) (c : OptCase) : OverlapOpts × Bool :=
  match c with
  | OptCase.optM v => ({ st.1 with minOverlap := v }, st.2)
  | OptCase.optP v => ({ st.1 with prefixStr := v }, st.2)
  | OptCase.optE raw => ({ st.1 with errorRateRaw := raw }, st.2)
  | OptCase.optT v => ({ st.1 with numThreads := v }, st.2)
  | OptCase.optL v => ({ st.1 with seedLength := v }, st.2)
  | OptCase.optS v => ({ st.1 with seedStride := v }, st.2)
  | OptCase.optI => ({ st.1 with bIrreducibleOnly := true }, st.2)
  | OptCase.optUnknown => (st.1, true)
  | OptCase.optV => ({ st.1 with verbose := st.1.verbose + 1 }, st.2)
  | OptCase.optHelp => st
  | OptCase.optVersion => st

/-- `parseOverlapOptions` (`overlap.cpp:367-433`): fold the option cases
over the initial state, accumulate the `die` conditions (argument count
not exactly one, non-positive thread count), then the parameter
validation of lines 416-432: negative seed length clamped to 0, seed
stride defaulted to the seed length, the reads file taken from the single
positional argument, and the prefix defaulted via `stripFilename` (an
external helper from `Util.h`, taken as a parameter).  The error-rate
clamp of lines 417-418 touches only the (raw) error-rate field and is not
modelled beyond that. -/
def parseOverlapOptions (strip : String → String) (argCases : List OptCase)
    (positional : List String) (defaultMinOverlap : Nat) : OverlapOpts × Bool :=
  let st := argCases.foldl applyOption (initialOpts defaultMinOverlap, false)
  let o1 := st.1
  let die := st.2 || decide (positional.length < 1) || decide (positional.length > 1) ||
    decide (o1.numThreads ≤ 0)
  let o2 := if o1.seedLength < 0 then { o1 with seedLength := 0 } else o1
  let o3 := if o2.seedLength > 0 ∧ o2.seedStride ≤ 0 then
      { o2 with seedStride := o2.seedLength } else o2
  let o4 := { o3 with readsFile := positional.headD "" }
  let o5 := if o4.prefixStr = "" then { o4 with prefixStr := strip o4.readsFile } else o4
  (o5, die)

/-- The top-level routines of `overlap.cpp` that `overlapMain` can invoke. -/
inductive PipelineCall where
  | parseOverlapOptionsCall
  | writeASQGHeader
  | computeHits
  | convertHitsToASQGCall
  | convertHitsToOverlapsCall
  | writeOverlapCall
deriving DecidableEq, BEq, Repr

/-- The sequence of stage calls made by `overlapMain` (`overlap.cpp:102-159`):
option parsing (line 104), the ASQG header (lines 114-120), hit
computation (line 134 or 139), and `convertHitsToASQG` (line 150).
`convertHitsToOverlaps` (line 203) — the only caller of `writeOverlap`
(line 237) — appears nowhere in the body. -/
def overlapMainCalls : List PipelineCall :=
  [PipelineCall.parseOverlapOptionsCall, PipelineCall.writeASQGHeader,
    PipelineCall.computeHits, PipelineCall.convertHitsToASQGCall]

/-- A two-read table for concrete scenarios: read 0 is `q`, every other
index resolves to `t`. -/
def tableTwo (q t : SeqItem) : Nat → SeqItem :=
  fun n => if n == 0 then q else t

/-- A suffix-array index mapping every position to read-table index 1. -/
def saiOne : Int → Nat :=
  fun _ => 1

/-- A hit block with interval `[0, 0]`, overlap length 4 and both strand
flags clear, for concrete scenarios. -/
def blkFwd : OverlapBlock :=
  ⟨0, 0, 4, 0, false, false⟩

/-- A hit block with interval `[0, 0]`, overlap length 5 and the
target-reverse flag set, for concrete scenarios. -/
def blkTgtRev : OverlapBlock :=
  ⟨0, 0, 5, 0, false, true⟩

/-- The overlap inferred from `blkFwd` between query `"b"` (length 8) and
target `"a"` (length 8). -/
def ovFwd : Overlap :=
  ⟨"b", ⟨4, 7, 8⟩, "a", ⟨0, 3, 8⟩, false, 0⟩

/-- The overlap inferred from `blkTgtRev` between query `"b"` (length 10)
and target `"a"` (length 10): the target-side coordinate has been flipped
to `[5, 9]`. -/
def ovTgtRev : Overlap :=
  ⟨"b", ⟨5, 9, 10⟩, "a", ⟨5, 9, 10⟩, true, 0⟩

/-- A proper same-strand overlap for the legacy router: the query suffix
`[5, 9]` meets the leading target interval `[0, 4]`, both over length 10. -/
def ovProper : Overlap :=
  ⟨"b", ⟨5, 9, 10⟩, "a", ⟨0, 4, 10⟩, false, 0⟩

/-- A containment overlap for the legacy router: the target coordinate
spans its whole sequence. -/
def ovContained : Overlap :=
  ⟨"b", ⟨0, 4, 10⟩, "a", ⟨0, 4, 5⟩, false, 0⟩

/-! Theorems. -/

/-- C6: for a well-formed coordinate `c` with `0 ≤ start ≤ stop < seqlen`,
`flip` maps the interval `[start, stop]` to
`[seqlen - 1 - stop, seqlen - 1 - start]`, and applying `flip` twice
returns the original coordinate. -/
theorem seqCoord_flip_formula_involution (c : SeqCoord)
    (h : 0 ≤ c.start ∧ c.start ≤ c.stop ∧ c.stop < c.seqlen) :
    c.flip = ⟨c.seqlen - 1 - c.stop, c.seqlen - 1 - c.start, c.seqlen⟩ ∧
      c.flip.flip = c := by
  refine ⟨rfl, ?_⟩
  cases c with
  | mk s e l =>
    dsimp only [SeqCoord.flip]
    rw [SeqCoord.mk.injEq]
    omega

/-- Witness for C6 at the coordinate `[1, 2]` over length 5. -/
theorem seqCoord_flip_formula_involution_witness :
    (SeqCoord.mk 1 2 5).flip = ⟨2, 3, 5⟩ ∧ (SeqCoord.mk 1 2 5).flip.flip = ⟨1, 2, 5⟩ :=
  seqCoord_flip_formula_involution ⟨1, 2, 5⟩ (by decide)

/-- C7: in legacy mode `writeOverlap` routes an overlap with either
endpoint contained to the containment stream and only such overlaps
there — no extremity or properness condition enters that decision — and
an overlap routed to the overlap stream is never a containment, so the
two destination files are disjoint. -/
theorem writeOverlap_containment_routing (ovr : Overlap) :
    (writeOverlap ovr = WriteDest.toContainment ↔
      (ovr.coordA.isContained || ovr.coordB.isContained) = true) ∧
    (writeOverlap ovr = WriteDest.toOverlaps →
      (ovr.coordA.isContained || ovr.coordB.isContained) = false) := by
  unfold writeOverlap
  dsimp only
  split_ifs with h1 h2 h3 <;> simp_all

/-- Witness for C7: the containment `ovContained` is routed to the
containment stream. -/
theorem writeOverlap_containment_routing_witness :
    writeOverlap ovContained = WriteDest.toContainment :=
  (writeOverlap_containment_routing ovContained).1.mpr (by decide)

/-- C8: in legacy mode a non-contained overlap with both endpoints
extreme is written to the overlap stream iff it is proper — same-strand
overlaps need both extremity flags to differ between the endpoints,
opposite-strand overlaps need both to agree — and an improper one is
discarded to the non-fatal skip path. -/
theorem writeOverlap_properness (ovr : Overlap)
    (hc : (ovr.coordA.isContained || ovr.coordB.isContained) = false)
    (he : (ovr.coordA.isExtreme && ovr.coordB.isExtreme) = true) :
    (writeOverlap ovr = WriteDest.toOverlaps ↔
      (if ovr.isRC = false then
        ovr.coordA.isLeftExtreme ≠ ovr.coordB.isLeftExtreme ∧
          ovr.coordA.isRightExtreme ≠ ovr.coordB.isRightExtreme
      else
        ovr.coordA.isLeftExtreme = ovr.coordB.isLeftExtreme ∧
          ovr.coordA.isRightExtreme = ovr.coordB.isRightExtreme)) ∧
    (¬ (if ovr.isRC = false then
        ovr.coordA.isLeftExtreme ≠ ovr.coordB.isLeftExtreme ∧
          ovr.coordA.isRightExtreme ≠ ovr.coordB.isRightExtreme
      else
        ovr.coordA.isLeftExtreme = ovr.coordB.isLeftExtreme ∧
          ovr.coordA.isRightExtreme = ovr.coordB.isRightExtreme) →
      writeOverlap ovr = WriteDest.skippedImproper) := by
  have heA : ovr.coordA.isExtreme = true := (Bool.and_eq_true _ _ |>.mp he).1
  have heB : ovr.coordB.isExtreme = true := (Bool.and_eq_true _ _ |>.mp he).2
  unfold writeOverlap
  dsimp only
  rw [hc]
  simp only [heA, heB]
  cases hR : ovr.isRC <;>
    cases h1 : ovr.coordA.isLeftExtreme <;>
    cases h2 : ovr.coordB.isLeftExtreme <;>
    cases h3 : ovr.coordA.isRightExtreme <;>
    cases h4 : ovr.coordB.isRightExtreme <;>
    simp_all

/-- Witness for C8: the proper same-strand overlap `ovProper` is written
to the overlap stream. -/
theorem writeOverlap_properness_witness :
    writeOverlap ovProper = WriteDest.toOverlaps :=
  (writeOverlap_properness ovProper (by decide) (by decide)).1.mpr (by decide)

/-- C1: for a hit position whose resolved target id differs from the
query id, the constructed overlap is discarded iff the query id is
lexicographically lower than the target id, or the match is a containment
and the block's query-reverse flag is set; every other such overlap is
retained in the result. -/
theorem positionToOverlap_discard_iff (pFwdRT pRevRT : Nat → SeqItem)
    (pFwdSAI pRevSAI : Int → Nat) (readIdx : Nat) (record : OverlapBlock) (j : Int)
    (hne : (queryOf pFwdRT pRevRT record readIdx).id ≠
      (targetOf pFwdRT pRevRT pFwdSAI pRevSAI record j).id) :
    (positionToOverlap pFwdRT pRevRT pFwdSAI pRevSAI readIdx record j = none ↔
      (strLt (buildOverlap pFwdRT pRevRT pFwdSAI pRevSAI readIdx record j).idA
          (buildOverlap pFwdRT pRevRT pFwdSAI pRevSAI readIdx record j).idB = true ∨
        ((buildOverlap pFwdRT pRevRT pFwdSAI pRevSAI readIdx record j).isContainment = true ∧
          record.isQueryRev = true))) ∧
    (¬ (strLt (buildOverlap pFwdRT pRevRT pFwdSAI pRevSAI readIdx record j).idA
          (buildOverlap pFwdRT pRevRT pFwdSAI pRevSAI readIdx record j).idB = true ∨
        ((buildOverlap pFwdRT pRevRT pFwdSAI pRevSAI readIdx record j).isContainment = true ∧
          record.isQueryRev = true)) →
      positionToOverlap pFwdRT pRevRT pFwdSAI pRevSAI readIdx record j =
        some (buildOverlap pFwdRT pRevRT pFwdSAI pRevSAI readIdx record j)) := by
  unfold positionToOverlap
  dsimp only
  rw [if_pos hne]
  by_cases hg : (strLt (buildOverlap pFwdRT pRevRT pFwdSAI pRevSAI readIdx record j).idA
      (buildOverlap pFwdRT pRevRT pFwdSAI pRevSAI readIdx record j).idB ||
    ((buildOverlap pFwdRT pRevRT pFwdSAI pRevSAI readIdx record j).isContainment &&
      record.isQueryRev)) = true
  · rw [if_pos hg]
    simp only [Bool.or_eq_true, Bool.and_eq_true] at hg
    simp [hg]
  · rw [if_neg hg]
    simp only [Bool.or_eq_true, Bool.and_eq_true] at hg
    simp [hg]

/-- Witness for C1: with distinct ids `"b"` and `"a"` and no containment,
the overlap is retained. -/
theorem positionToOverlap_discard_iff_witness :
    positionToOverlap (tableTwo ⟨"b", "ACGTACGT"⟩ ⟨"a", "GGGGACGT"⟩)
        (tableTwo ⟨"b", "ACGTACGT"⟩ ⟨"a", "GGGGACGT"⟩) saiOne saiOne 0 blkFwd 0 =
      some (buildOverlap (tableTwo ⟨"b", "ACGTACGT"⟩ ⟨"a", "GGGGACGT"⟩)
        (tableTwo ⟨"b", "ACGTACGT"⟩ ⟨"a", "GGGGACGT"⟩) saiOne saiOne 0 blkFwd 0) :=
  (positionToOverlap_discard_iff (tableTwo ⟨"b", "ACGTACGT"⟩ ⟨"a", "GGGGACGT"⟩)
    (tableTwo ⟨"b", "ACGTACGT"⟩ ⟨"a", "GGGGACGT"⟩) saiOne saiOne 0 blkFwd 0
    (by decide)).2 (by decide)

/-- C2: for a non-self candidate position, the built overlap has
`coordA = [len(query) - overlapLen, len(query) - 1]` over `len(query)`
flipped exactly when the query-reverse flag is set,
`coordB = [0, overlapLen - 1]` over `len(target)` flipped exactly when
the target-reverse flag is set, and a reverse-complement flag equal to
the XOR of the two strand flags. -/
theorem buildOverlap_coordinates (pFwdRT pRevRT : Nat → SeqItem)
    (pFwdSAI pRevSAI : Int → Nat) (readIdx : Nat) (record : OverlapBlock) (j : Int)
    (_hne : (queryOf pFwdRT pRevRT record readIdx).id ≠
      (targetOf pFwdRT pRevRT pFwdSAI pRevSAI record j).id) :
    ((buildOverlap pFwdRT pRevRT pFwdSAI pRevSAI readIdx record j).coordA =
      (if record.isQueryRev then
        SeqCoord.flip
          ⟨((queryOf pFwdRT pRevRT record readIdx).seq.length : Int) - record.overlapLen,
            ((queryOf pFwdRT pRevRT record readIdx).seq.length : Int) - 1,
            ((queryOf pFwdRT pRevRT record readIdx).seq.length : Int)⟩
      else
        ⟨((queryOf pFwdRT pRevRT record readIdx).seq.length : Int) - record.overlapLen,
          ((queryOf pFwdRT pRevRT record readIdx).seq.length : Int) - 1,
          ((queryOf pFwdRT pRevRT record readIdx).seq.length : Int)⟩)) ∧
    ((buildOverlap pFwdRT pRevRT pFwdSAI pRevSAI readIdx record j).coordB =
      (if record.isTargetRev then
        SeqCoord.flip
          ⟨0, record.overlapLen - 1,
            ((targetOf pFwdRT pRevRT pFwdSAI pRevSAI record j).seq.length : Int)⟩
      else
        ⟨0, record.overlapLen - 1,
          ((targetOf pFwdRT pRevRT pFwdSAI pRevSAI record j).seq.length : Int)⟩)) ∧
    ((buildOverlap pFwdRT pRevRT pFwdSAI pRevSAI readIdx record j).isRC =
      (record.isTargetRev != record.isQueryRev)) := by
  unfold buildOverlap
  dsimp only
  refine ⟨?_, ?_, rfl⟩
  · cases hq : record.isQueryRev <;>
      simp [SeqCoord.flip, SeqCoord.mk.injEq]
  · cases ht : record.isTargetRev <;>
      simp [SeqCoord.flip, SeqCoord.mk.injEq]

/-- Witness for C2 at the forward-forward scenario. -/
theorem buildOverlap_coordinates_witness :
    (buildOverlap (tableTwo ⟨"b", "ACGTACGT"⟩ ⟨"a", "GGGGACGT"⟩)
        (tableTwo ⟨"b", "ACGTACGT"⟩ ⟨"a", "GGGGACGT"⟩) saiOne saiOne 0 blkFwd 0).coordA =
      ⟨4, 7, 8⟩ ∧
    (buildOverlap (tableTwo ⟨"b", "ACGTACGT"⟩ ⟨"a", "GGGGACGT"⟩)
        (tableTwo ⟨"b", "ACGTACGT"⟩ ⟨"a", "GGGGACGT"⟩) saiOne saiOne 0 blkFwd 0).coordB =
      ⟨0, 3, 8⟩ ∧
    (buildOverlap (tableTwo ⟨"b", "ACGTACGT"⟩ ⟨"a", "GGGGACGT"⟩)
        (tableTwo ⟨"b", "ACGTACGT"⟩ ⟨"a", "GGGGACGT"⟩) saiOne saiOne 0 blkFwd 0).isRC =
      false := by
  have h := buildOverlap_coordinates (tableTwo ⟨"b", "ACGTACGT"⟩ ⟨"a", "GGGGACGT"⟩)
    (tableTwo ⟨"b", "ACGTACGT"⟩ ⟨"a", "GGGGACGT"⟩) saiOne saiOne 0 blkFwd 0 (by decide)
  refine ⟨?_, ?_, ?_⟩
  · rw [h.1]; decide
  · rw [h.2.1]; decide
  · rw [h.2.2]; decide

/-- C4: a candidate position whose resolved target id equals the query id
contributes nothing. -/
theorem positionToOverlap_self_none (pFwdRT pRevRT : Nat → SeqItem)
    (pFwdSAI pRevSAI : Int → Nat) (readIdx : Nat) (record : OverlapBlock) (j : Int)
    (heq : (queryOf pFwdRT pRevRT record readIdx).id =
      (targetOf pFwdRT pRevRT pFwdSAI pRevSAI record j).id) :
    positionToOverlap pFwdRT pRevRT pFwdSAI pRevSAI readIdx record j = none := by
  unfold positionToOverlap
  dsimp only
  rw [if_neg (not_not_intro heq)]

/-- Witness for C4: a self-match position produces no overlap. -/
theorem positionToOverlap_self_none_witness :
    positionToOverlap (tableTwo ⟨"r", "ACGT"⟩ ⟨"r", "ACGT"⟩)
        (tableTwo ⟨"r", "ACGT"⟩ ⟨"r", "ACGT"⟩) saiOne saiOne 0 blkFwd 0 = none :=
  positionToOverlap_self_none (tableTwo ⟨"r", "ACGT"⟩ ⟨"r", "ACGT"⟩)
    (tableTwo ⟨"r", "ACGT"⟩ ⟨"r", "ACGT"⟩) saiOne saiOne 0 blkFwd 0 (by decide)

/-- Helper: a successful `positionToOverlap` yields exactly the built
overlap, with the deduplication guard false and distinct ids. -/
theorem positionToOverlap_eq_some {pFwdRT pRevRT : Nat → SeqItem}
    {pFwdSAI pRevSAI : Int → Nat} {readIdx : Nat} {record : OverlapBlock} {j : Int}
    {o : Overlap}
    (h : positionToOverlap pFwdRT pRevRT pFwdSAI pRevSAI readIdx record j = some o) :
    o = buildOverlap pFwdRT pRevRT pFwdSAI pRevSAI readIdx record j ∧
      (strLt o.idA o.idB || (o.isContainment && record.isQueryRev)) = false := by
  unfold positionToOverlap at h
  dsimp only at h
  by_cases hne : (queryOf pFwdRT pRevRT record readIdx).id ≠
      (targetOf pFwdRT pRevRT pFwdSAI pRevSAI record j).id
  · rw [if_pos hne] at h
    by_cases hg : (strLt (buildOverlap pFwdRT pRevRT pFwdSAI pRevSAI readIdx record j).idA
        (buildOverlap pFwdRT pRevRT pFwdSAI pRevSAI readIdx record j).idB ||
      ((buildOverlap pFwdRT pRevRT pFwdSAI pRevSAI readIdx record j).isContainment &&
        record.isQueryRev)) = true
    · rw [if_pos hg] at h
      cases h
    · rw [if_neg hg] at h
      have ho := (Option.some.inj h).symm
      subst ho
      exact ⟨rfl, Bool.not_eq_true _ |>.mp hg⟩
  · rw [if_neg hne] at h
    cases h

/-- Helper: `listLtChar` is a trichotomous strict order: if `as` is not
below `bs`, then either they are equal or `bs` is below `as`. -/
theorem listLtChar_false_total (as : List Char) : ∀ bs : List Char,
    listLtChar as bs = false → bs = as ∨ listLtChar bs as = true := by
  induction as with
  | nil =>
    intro bs h
    cases bs with
    | nil => exact Or.inl rfl
    | cons b bs => simp [listLtChar] at h
  | cons a as ih =>
    intro bs h
    cases bs with
    | nil => exact Or.inr rfl
    | cons b bs =>
      unfold listLtChar at h
      by_cases h1 : a.toNat < b.toNat
      · rw [if_pos h1] at h
        cases h
      · rw [if_neg h1] at h
        by_cases h2 : b.toNat < a.toNat
        · refine Or.inr ?_
          unfold listLtChar
          rw [if_pos h2]
        · rw [if_neg h2] at h
          have hab : a = b := by
            have hn : a.toNat = b.toNat := by omega
            exact Char.ext (UInt32.ext hn)
          subst hab
          rcases ih bs h with rfl | hlt
          · exact Or.inl rfl
          · refine Or.inr ?_
            unfold listLtChar
            rw [if_neg h1, if_neg h2]
            exact hlt

/-- Helper: trichotomy for `strLt`. -/
theorem strLt_false_total (a b : String) (h : strLt a b = false) :
    b = a ∨ strLt b a = true := by
  cases a with
  | mk as =>
    cases b with
    | mk bs =>
      rcases listLtChar_false_total as bs h with rfl | hlt
      · exact Or.inl rfl
      · exact Or.inr hlt

/-- Helper: every overlap in `runBlocks` output comes from a successful
`positionToOverlap` on some block and position. -/
theorem mem_runBlocks {pFwdRT pRevRT : Nat → SeqItem} {pFwdSAI pRevSAI : Int → Nat}
    {readIdx : Nat} : ∀ (n : Nat) (s : IStream) (o : Overlap),
    o ∈ runBlocks pFwdRT pRevRT pFwdSAI pRevSAI readIdx n s →
    ∃ record j, positionToOverlap pFwdRT pRevRT pFwdSAI pRevSAI readIdx record j = some o := by
  intro n
  induction n with
  | zero =>
    intro s o h
    simp [runBlocks] at h
  | succ n ih =>
    intro s o h
    rw [runBlocks] at h
    rcases List.mem_append.mp h with h | h
    · rcases List.mem_filterMap.mp (by simpa [blockToOverlaps] using h) with ⟨j, hj, hp⟩
      exact ⟨_, j, hp⟩
    · exact ih _ o h

/-- C3: every overlap returned by `hitStringToOverlaps` satisfies
`idA >= idB`: the query id is never lexicographically below the target
id, so the target id is below or equal to the query id. -/
theorem hitStringToOverlaps_canonical_order (hitString : String)
    (pFwdRT pRevRT : Nat → SeqItem) (pFwdSAI pRevSAI : Int → Nat) (o : Overlap)
    (ho : o ∈ hitStringToOverlaps hitString pFwdRT pRevRT pFwdSAI pRevSAI) :
    strLt o.idA o.idB = false ∧ (o.idB = o.idA ∨ strLt o.idB o.idA = true) := by
  have hmem : ∃ record j,
      positionToOverlap pFwdRT pRevRT pFwdSAI pRevSAI
        (extractNat ⟨tokenize hitString, false⟩).1 record j = some o := by
    apply mem_runBlocks _ _ o
    simpa [hitStringToOverlaps] using ho
  rcases hmem with ⟨record, j, hp⟩
  rcases positionToOverlap_eq_some hp with ⟨-, hg⟩
  have hlt : strLt o.idA o.idB = false := by
    cases hb : strLt o.idA o.idB
    · rfl
    · rw [hb] at hg
      simp at hg
  exact ⟨hlt, strLt_false_total o.idA o.idB hlt⟩

/-- Witness for C3 at the forward-forward hit line. -/
theorem hitStringToOverlaps_canonical_order_witness :
    strLt ovFwd.idA ovFwd.idB = false ∧
      (ovFwd.idB = ovFwd.idA ∨ strLt ovFwd.idB ovFwd.idA = true) :=
  hitStringToOverlaps_canonical_order "0 1 0 0 4 0 0"
    (tableTwo ⟨"b", "ACGTACGT"⟩ ⟨"a", "GGGGACGT"⟩)
    (tableTwo ⟨"b", "ACGTACGT"⟩ ⟨"a", "GGGGACGT"⟩) saiOne saiOne ovFwd (by decide)

/-- C9 counterexample: a hit block with the target-reverse flag set
produces a retained overlap whose `coordB.start` is 5, not 0: the
claimed invariant `coordB.start == 0` fails after the strand flip. -/
theorem hitStringToOverlaps_coordB_start_cex :
    hitStringToOverlaps "0 1 0 0 5 0 2"
        (tableTwo ⟨"b", "ACGTACGTAA"⟩ ⟨"a", "GGGGACGTTT"⟩)
        (tableTwo ⟨"b", "ACGTACGTAA"⟩ ⟨"a", "GGGGACGTTT"⟩) saiOne saiOne = [ovTgtRev] ∧
      ovTgtRev.coordB.start = 5 := by
  refine ⟨by decide, by decide⟩

/-- C9 (amended): every overlap produced by one hit position has
`coordB` anchored at the target origin before the strand flip: its
`start` is 0 when the block's target-reverse flag is clear, and
`len(target) - overlapLen` (the flipped origin anchor) when it is set. -/
theorem positionToOverlap_coordB_start (pFwdRT pRevRT : Nat → SeqItem)
    (pFwdSAI pRevSAI : Int → Nat) (readIdx : Nat) (record : OverlapBlock) (j : Int)
    (o : Overlap)
    (hsome : positionToOverlap pFwdRT pRevRT pFwdSAI pRevSAI readIdx record j = some o) :
    o.coordB.start =
      if record.isTargetRev then
        ((targetOf pFwdRT pRevRT pFwdSAI pRevSAI record j).seq.length : Int) -
          record.overlapLen
      else 0 := by
  rcases positionToOverlap_eq_some hsome with ⟨rfl, -⟩
  unfold buildOverlap
  dsimp only
  cases ht : record.isTargetRev <;> simp [SeqCoord.flip]

/-- Witness for C9 (amended) at the target-reverse scenario. -/
theorem positionToOverlap_coordB_start_witness :
    ovTgtRev.coordB.start = (5 : Int) := by
  have h := positionToOverlap_coordB_start
    (tableTwo ⟨"b", "ACGTACGTAA"⟩ ⟨"a", "GGGGACGTTT"⟩)
    (tableTwo ⟨"b", "ACGTACGTAA"⟩ ⟨"a", "GGGGACGTTT"⟩) saiOne saiOne 0 blkTgtRev 0
    ovTgtRev (by decide)
  simpa using h

/-- C5 counterexample: the hit line `"7 notanumber"`, whose block count
fails to parse, is consumed without any error: `hitStringToOverlaps`
returns normally with an empty vector — there is no `MalformedHitRecord`
(or any other) failure path in the function. -/
theorem hitStringToOverlaps_malformed_cex :
    hitStringToOverlaps "7 notanumber" (tableTwo ⟨"r", "AA"⟩ ⟨"s", "AA"⟩)
      (tableTwo ⟨"r", "AA"⟩ ⟨"s", "AA"⟩) saiOne saiOne = [] := by
  decide

/-- C5 (amended): when the `numBlocks` field of a hit line fails to
parse, `hitStringToOverlaps` raises no error: the failed extraction
leaves the block count at 0 and the line silently contributes an empty
overlap vector. -/
theorem hitStringToOverlaps_malformed_silent (hitString : String)
    (pFwdRT pRevRT : Nat → SeqItem) (pFwdSAI pRevSAI : Int → Nat)
    (t1 t2 : String) (rest : List String) (r : Nat)
    (htoks : tokenize hitString = t1 :: t2 :: rest)
    (h1 : parseNatToken t1 = some r) (h2 : parseNatToken t2 = none) :
    hitStringToOverlaps hitString pFwdRT pRevRT pFwdSAI pRevSAI = [] := by
  unfold hitStringToOverlaps
  dsimp only
  rw [htoks]
  simp [extractNat, h1, h2, runBlocks]

/-- Witness for C5 (amended) at the line `"5 x"`. -/
theorem hitStringToOverlaps_malformed_silent_witness :
    hitStringToOverlaps "5 x" (tableTwo ⟨"q", "ACGT"⟩ ⟨"t", "ACGT"⟩)
      (tableTwo ⟨"q", "ACGT"⟩ ⟨"t", "ACGT"⟩) saiOne saiOne = [] :=
  hitStringToOverlaps_malformed_silent "5 x" (tableTwo ⟨"q", "ACGT"⟩ ⟨"t", "ACGT"⟩)
    (tableTwo ⟨"q", "ACGT"⟩ ⟨"t", "ACGT"⟩) saiOne saiOne "5" "x" [] 5
    (by decide) (by decide) (by decide)

/-- C10: the output type starts at `OT_ASQG` and no option-parsing path
changes it, so the assertion `opt::outputType == OT_ASQG` at
`overlap.cpp:107` holds in every run, and `overlapMain` never calls the
legacy `convertHitsToOverlaps` routine (the only caller of
`writeOverlap`). -/
theorem outputType_always_ASQG (strip : String → String) (argCases : List OptCase)
    (positional : List String) (defaultMinOverlap : Nat) :
    (parseOverlapOptions strip argCases positional defaultMinOverlap).1.outputType =
      OutputType.OT_ASQG ∧
    overlapMainCalls.contains PipelineCall.convertHitsToOverlapsCall = false := by
  refine ⟨?_, rfl⟩
  have key : ∀ (l : List OptCase) (st : OverlapOpts × Bool),
      (l.foldl applyOption st).1.outputType = st.1.outputType := by
    intro l
    induction l with
    | nil => intro st; rfl
    | cons c l ih =>
      intro st
      rw [List.foldl_cons, ih]
      cases c <;> rfl
  unfold parseOverlapOptions
  dsimp only
  split_ifs <;> simp [key, initialOpts]

end SGAOverlap
